import Mathlib

/-!
Verification of the seo-maximus asynchronous job store, hero-image detection
heuristic, and image conversion pipeline.  Each definition is a shallow
embedding of the corresponding Python (or embedded JavaScript) source in
`src/app`; timestamps are threaded explicitly as natural-number clock values,
and external collaborators (browser collection, HTTP transport, the TinyPNG
API, base64 encoding) appear as explicit parameters.
-/

namespace SeoMax

/-! ## Job model (`src/app/models/job.py`) -/

/-- Opaque JSON-like mapping used for job payloads and results
(`Dict[str, Any]` in the source, modelled as an association list). -/
abbrev Payload := List (String × String)

/-- `JobStatus` enum: possible states for asynchronous jobs. -/
inductive JobStatus where
  | queued
  | processing
  | completed
  | failed
deriving DecidableEq, Repr

/-- `JobMetadata`: metadata associated with a job.  `created_at`/`updated_at`
are `datetime.utcnow()` values in the source; here the clock is an explicit
`Nat` supplied by the caller. -/
structure JobMetadata where
  job_id : String
  job_type : String
  status : JobStatus
  created_at : Nat
  updated_at : Nat
  error : Option String := none
  payload : Payload := []
  result : Option Payload := none
deriving DecidableEq, Repr

/-- `JobMetadata.with_status`: copy with an updated status and fresh
`updated_at` (the other fields, including `error` and `result`, are kept). -/
def JobMetadata.with_status (j : JobMetadata) (status : JobStatus) (now : Nat) :
    JobMetadata :=
  { j with status := status, updated_at := now }

/-- `JobMetadata.with_result`: copy with `result` set, `status := completed`
and a fresh `updated_at`.  The source's `model_copy(update=...)` touches only
these three fields; in particular `error` is NOT cleared. -/
def JobMetadata.with_result (j : JobMetadata) (result : Payload) (now : Nat) :
    JobMetadata :=
  { j with result := some result, status := JobStatus.completed, updated_at := now }

/-- `JobMetadata.with_error`: copy with `error` set, `status := failed` and a
fresh `updated_at`; `result` is kept as is. -/
def JobMetadata.with_error (j : JobMetadata) (message : String) (now : Nat) :
    JobMetadata :=
  { j with error := some message, status := JobStatus.failed, updated_at := now }

/-! ## In-memory job store (`src/app/services/job_store.py`)

The Python `InMemoryJobStore` holds a `Dict[str, JobMetadata]` guarded by a
lock; operations are sequential under the lock, so the store is modelled as an
insertion-ordered association list and each operation as a pure function on
it.  Python `raise KeyError(...)` becomes `Except.error`. -/

/-- The store's backing dictionary `_jobs`. -/
abbrev Store := List (String × JobMetadata)

/-- Dictionary lookup `self._jobs.get(job_id)`. -/
def storeGet : Store → String → Option JobMetadata
  | [], _ => none
  | p :: rest, jobId => if p.1 = jobId then some p.2 else storeGet rest jobId

/-- Dictionary assignment `self._jobs[job_id] = job`: replaces the value at an
existing key in place, otherwise appends (insertion order, as a `dict`). -/
def storeSet : Store → String → JobMetadata → Store
  | [], jobId, job => [(jobId, job)]
  | p :: rest, jobId, job =>
    if p.1 = jobId then (jobId, job) :: rest else p :: storeSet rest jobId job

/-- `InMemoryJobStore.create_job`: unconditional dictionary assignment — there
is no duplicate check in the source. -/
def InMemoryJobStore.create_job (st : Store) (job : JobMetadata) : Store :=
  storeSet st job.job_id job

/-- `InMemoryJobStore.update_job`: raises `KeyError` when the id is absent,
otherwise assigns. -/
def InMemoryJobStore.update_job (st : Store) (jobId : String) (job : JobMetadata) :
    Except String Store :=
  if (storeGet st jobId).isNone then
    Except.error ("Job " ++ jobId ++ " not found")
  else
    Except.ok (storeSet st jobId job)

/-- Module-level `create_job(job_id, job_type, payload)`: builds a fresh
`JobMetadata` in state `queued` and registers it via the store's
`create_job`; it never fails. -/
def create_job (st : Store) (jobId jobType : String) (payload : Payload)
    (now : Nat) : Store × JobMetadata :=
  let job : JobMetadata :=
    { job_id := jobId, job_type := jobType, status := JobStatus.queued,
      created_at := now, updated_at := now, error := none,
      payload := payload, result := none }
  (InMemoryJobStore.create_job st job, job)

/-- Module-level `mark_processing(job_id)`: `KeyError` when the job is
unknown, otherwise `with_status(processing)` + `update_job` — no check of the
current status. -/
def mark_processing (st : Store) (jobId : String) (now : Nat) :
    Except String (Store × JobMetadata) :=
  match storeGet st jobId with
  | none => Except.error ("Job " ++ jobId ++ " not found")
  | some job =>
    let updated := job.with_status JobStatus.processing now
    match InMemoryJobStore.update_job st jobId updated with
    | Except.error e => Except.error e
    | Except.ok st' => Except.ok (st', updated)

/-- Module-level `mark_completed(job_id, result)`: `KeyError` when unknown,
otherwise `with_result` + `update_job` — no check of the current status. -/
def mark_completed (st : Store) (jobId : String) (result : Payload) (now : Nat) :
    Except String (Store × JobMetadata) :=
  match storeGet st jobId with
  | none => Except.error ("Job " ++ jobId ++ " not found")
  | some job =>
    let updated := job.with_result result now
    match InMemoryJobStore.update_job st jobId updated with
    | Except.error e => Except.error e
    | Except.ok st' => Except.ok (st', updated)

/-- Module-level `mark_failed(job_id, message)`: `KeyError` when unknown,
otherwise `with_error` + `update_job` — no check of the current status. -/
def mark_failed (st : Store) (jobId : String) (message : String) (now : Nat) :
    Except String (Store × JobMetadata) :=
  match storeGet st jobId with
  | none => Except.error ("Job " ++ jobId ++ " not found")
  | some job =>
    let updated := job.with_error message now
    match InMemoryJobStore.update_job st jobId updated with
    | Except.error e => Except.error e
    | Except.ok st' => Except.ok (st', updated)

deriving instance DecidableEq for Except

/-! ### Store lemmas -/

theorem storeGet_storeSet_self (st : Store) (jobId : String) (job : JobMetadata) :
    storeGet (storeSet st jobId job) jobId = some job := by
  induction st with
  | nil => simp [storeGet, storeSet]
  | cons p rest ih =>
    by_cases h : p.1 = jobId
    · simp [storeGet, storeSet, h]
    · simp [storeGet, storeSet, h, ih]

theorem update_job_of_present {st : Store} {jobId : String} {j : JobMetadata}
    (job : JobMetadata) (h : storeGet st jobId = some job) :
    InMemoryJobStore.update_job st jobId j = Except.ok (storeSet st jobId j) := by
  simp [InMemoryJobStore.update_job, h]

theorem mark_processing_of_present {st : Store} {jobId : String}
    (job : JobMetadata) (now : Nat) (h : storeGet st jobId = some job) :
    mark_processing st jobId now =
      Except.ok (storeSet st jobId (job.with_status JobStatus.processing now),
        job.with_status JobStatus.processing now) := by
  simp [mark_processing, h, update_job_of_present job h]

theorem mark_completed_of_present {st : Store} {jobId : String}
    (job : JobMetadata) (result : Payload) (now : Nat)
    (h : storeGet st jobId = some job) :
    mark_completed st jobId result now =
      Except.ok (storeSet st jobId (job.with_result result now),
        job.with_result result now) := by
  simp [mark_completed, h, update_job_of_present job h]

theorem mark_failed_of_present {st : Store} {jobId : String}
    (job : JobMetadata) (message : String) (now : Nat)
    (h : storeGet st jobId = some job) :
    mark_failed st jobId message now =
      Except.ok (storeSet st jobId (job.with_error message now),
        job.with_error message now) := by
  simp [mark_failed, h, update_job_of_present job h]

/-! ## Claim C1 — duplicate `create` -/

/-- Store produced by the first `create_job("a", "image", {})`. -/
def c1Store1 : Store := (create_job [] "a" "image" [] 0).1

/-- C1 counterexample: with `"a"` already present, a second
`create_job("a", ...)` does not fail (its type admits no failure in the
source) and does NOT leave the existing record unchanged — the record is
silently overwritten, so the claimed `DuplicateJobError` behaviour is false
at this concrete input. -/
theorem create_duplicate_overwrites_cex :
    (storeGet c1Store1 "a").isSome = true ∧
      storeGet ((create_job c1Store1 "a" "critical_css" [("k", "v")] 1).1) "a" ≠
        storeGet c1Store1 "a" := by
  decide

/-- C1 (amended): `create(job_id, job_type, payload)` always succeeds and
registers a record whose status is `queued`; when `job_id` already exists the
existing record is silently overwritten instead of failing with
`DuplicateJobError`. -/
theorem create_always_inserts_queued (st : Store) (jobId jobType : String)
    (payload : Payload) (now : Nat) :
    (create_job st jobId jobType payload now).2.status = JobStatus.queued ∧
      storeGet (create_job st jobId jobType payload now).1 jobId =
        some (create_job st jobId jobType payload now).2 := by
  refine ⟨rfl, ?_⟩
  simp [create_job, InMemoryJobStore.create_job, storeGet_storeSet_self]

/-! ## Claim C2 — transitions out of terminal states -/

/-- A job record driven to the terminal `completed` state. -/
def c2Job1 : JobMetadata :=
  ((create_job [] "a" "image" [] 0).2).with_result [("r", "1")] 1

/-- Store holding the completed job `c2Job1`. -/
def c2Store1 : Store := [("a", c2Job1)]

/-- C2 counterexample: the completed store `c2Store1` is reachable
(`create` then `mark_completed`), its record is terminal, and yet a second
terminal-state write (`mark_completed`) succeeds instead of failing with
`InvalidTransitionError`, and `mark_processing` succeeds and changes the
record's status back to `processing`. -/
theorem terminal_write_not_guarded_cex :
    mark_completed (create_job [] "a" "image" [] 0).1 "a" [("r", "1")] 1 =
        Except.ok (c2Store1, c2Job1) ∧
      c2Job1.status = JobStatus.completed ∧
      (mark_completed c2Store1 "a" [("r", "2")] 2).isOk = true ∧
      Except.map (fun p => p.2.status) (mark_processing c2Store1 "a" 2) =
        Except.ok JobStatus.processing := by
  decide

/-- C2 (amended): the store performs no status check on transitions: for
every job present in the store — whatever its current status, including the
terminal `completed`/`failed` — `mark_processing`, `mark_completed` and
`mark_failed` all succeed and overwrite the record (there is no
`InvalidTransitionError` in the code; the only failure is `KeyError` for an
unknown id).  In particular a second terminal-state write succeeds. -/
theorem transitions_not_guarded (st : Store) (jobId : String)
    (job : JobMetadata) (r : Payload) (msg : String) (now : Nat)
    (h : storeGet st jobId = some job) :
    (mark_processing st jobId now =
        Except.ok (storeSet st jobId (job.with_status JobStatus.processing now),
          job.with_status JobStatus.processing now) ∧
      (job.with_status JobStatus.processing now).status = JobStatus.processing) ∧
    (mark_completed st jobId r now =
        Except.ok (storeSet st jobId (job.with_result r now),
          job.with_result r now) ∧
      (job.with_result r now).status = JobStatus.completed) ∧
    (mark_failed st jobId msg now =
        Except.ok (storeSet st jobId (job.with_error msg now),
          job.with_error msg now) ∧
      (job.with_error msg now).status = JobStatus.failed) :=
  ⟨⟨mark_processing_of_present job now h, rfl⟩,
   ⟨mark_completed_of_present job r now h, rfl⟩,
   ⟨mark_failed_of_present job msg now h, rfl⟩⟩

/-- C2 witness: `transitions_not_guarded` applied to the reachable store
whose job is already `completed`. -/
theorem transitions_not_guarded_witness :
    storeGet c2Store1 "a" = some c2Job1 ∧
      ((mark_processing c2Store1 "a" 2 =
          Except.ok (storeSet c2Store1 "a" (c2Job1.with_status JobStatus.processing 2),
            c2Job1.with_status JobStatus.processing 2) ∧
        (c2Job1.with_status JobStatus.processing 2).status = JobStatus.processing) ∧
      (mark_completed c2Store1 "a" [("r", "2")] 2 =
          Except.ok (storeSet c2Store1 "a" (c2Job1.with_result [("r", "2")] 2),
            c2Job1.with_result [("r", "2")] 2) ∧
        (c2Job1.with_result [("r", "2")] 2).status = JobStatus.completed) ∧
      (mark_failed c2Store1 "a" "late" 2 =
          Except.ok (storeSet c2Store1 "a" (c2Job1.with_error "late" 2),
            c2Job1.with_error "late" 2) ∧
        (c2Job1.with_error "late" 2).status = JobStatus.failed)) :=
  ⟨by decide, transitions_not_guarded c2Store1 "a" c2Job1 [("r", "2")] "late" 2 (by decide)⟩

/-! ## Claim C3 — `result`/`error` exclusivity -/

/-- A job record driven to the `failed` state with error `"boom"`. -/
def c3Job1 : JobMetadata :=
  ((create_job [] "a" "image" [] 0).2).with_error "boom" 1

/-- Store holding the failed job `c3Job1`. -/
def c3Store1 : Store := [("a", c3Job1)]

/-- The failed job after a subsequent `mark_completed`. -/
def c3Job2 : JobMetadata := c3Job1.with_result [("r", "1")] 2

/-- C3 counterexample: the record reached by `create` → `mark_failed("boom")`
→ `mark_completed` is `completed` with BOTH `result` and `error` non-empty:
`with_result` does not clear `error`, so the at-most-one invariant is false
for a reachable record. -/
theorem complete_keeps_error_cex :
    mark_failed (create_job [] "a" "image" [] 0).1 "a" "boom" 1 =
        Except.ok (c3Store1, c3Job1) ∧
      mark_completed c3Store1 "a" [("r", "1")] 2 =
        Except.ok ([("a", c3Job2)], c3Job2) ∧
      c3Job2.status = JobStatus.completed ∧
      c3Job2.error = some "boom" ∧
      c3Job2.result = some [("r", "1")] := by
  decide

/-- C3 (amended): `complete(job_id, result)` sets `status = completed` and
`result = result` but does NOT clear `error` — the prior `error` value is
preserved verbatim.  Consequently a record reachable by `fail` followed by
`complete` carries both a non-empty `result` and a non-empty `error`, and
the claimed at-most-one invariant does not hold. -/
theorem complete_sets_result_preserves_error (st : Store) (jobId : String)
    (job : JobMetadata) (r : Payload) (now : Nat)
    (h : storeGet st jobId = some job) :
    mark_completed st jobId r now =
        Except.ok (storeSet st jobId (job.with_result r now),
          job.with_result r now) ∧
      (job.with_result r now).status = JobStatus.completed ∧
      (job.with_result r now).result = some r ∧
      (job.with_result r now).error = job.error :=
  ⟨mark_completed_of_present job r now h, rfl, rfl, rfl⟩

/-- C3 witness: `complete_sets_result_preserves_error` applied to the
reachable store whose job is `failed` with error `"boom"`; the completed
record keeps that error. -/
theorem complete_sets_result_preserves_error_witness :
    storeGet c3Store1 "a" = some c3Job1 ∧
      (mark_completed c3Store1 "a" [("r", "1")] 2 =
          Except.ok (storeSet c3Store1 "a" (c3Job1.with_result [("r", "1")] 2),
            c3Job1.with_result [("r", "1")] 2) ∧
        (c3Job1.with_result [("r", "1")] 2).status = JobStatus.completed ∧
        (c3Job1.with_result [("r", "1")] 2).result = some [("r", "1")] ∧
        (c3Job1.with_result [("r", "1")] 2).error = c3Job1.error) :=
  ⟨by decide, complete_sets_result_preserves_error c3Store1 "a" c3Job1 [("r", "1")] 2 (by decide)⟩

/-! ## Task dispatcher (`src/app/tasks/image_tasks.py`, `css_tasks.py`)

Both Celery tasks share the same structure: `mark_processing`, run the
pipeline (`image_optimizer.convert` resp. `critical_css_extractor.extract`
followed by `model_dump`, abstracted here as a `pipeline` outcome of type
`Except String Payload`), then `mark_completed`; any exception triggers the
`except` clause which calls `mark_failed` and re-raises.  Note that if
`mark_failed` itself raises (unknown job), that `KeyError` propagates instead
of the original exception, exactly as in Python. -/

/-- Shared try/except body of `process_image_conversion` and
`generate_critical_css`: returns the final store and the value returned or
exception re-raised to the Celery execution context. -/
def runJobTask (st : Store) (jobId : String) (pipeline : Except String Payload)
    (t1 t2 : Nat) : Store × Except String Payload :=
  let tryBody : Store × Except String Payload :=
    match mark_processing st jobId t1 with
    | Except.error e => (st, Except.error e)
    | Except.ok (st1, _) =>
      match pipeline with
      | Except.error e => (st1, Except.error e)
      | Except.ok p =>
        match mark_completed st1 jobId p t2 with
        | Except.error e => (st1, Except.error e)
        | Except.ok (st2, _) => (st2, Except.ok p)
  match tryBody with
  | (st', Except.ok p) => (st', Except.ok p)
  | (st', Except.error e) =>
    match mark_failed st' jobId e t2 with
    | Except.error e2 => (st', Except.error e2)
    | Except.ok (st'', _) => (st'', Except.error e)

/-- Celery task `image.process_conversion`. -/
def process_image_conversion (st : Store) (jobId : String)
    (pipeline : Except String Payload) (t1 t2 : Nat) :
    Store × Except String Payload :=
  runJobTask st jobId pipeline t1 t2

/-- Celery task `critical_css.generate` (structurally identical dispatch). -/
def generate_critical_css (st : Store) (jobId : String)
    (pipeline : Except String Payload) (t1 t2 : Nat) :
    Store × Except String Payload :=
  runJobTask st jobId pipeline t1 t2

/-- The dispatch contract: on a pipeline exception the job is recorded
`failed` with the exception message and the exception is re-raised; on
success the job is recorded `completed` with the serialized result, which is
also returned. -/
def dispatchRecordsOutcome
    (f : Store → String → Except String Payload → Nat → Nat →
      Store × Except String Payload)
    (st : Store) (jobId : String) (pipeline : Except String Payload)
    (t1 t2 : Nat) : Prop :=
  (∀ e, pipeline = Except.error e →
    (f st jobId pipeline t1 t2).2 = Except.error e ∧
    ∃ j, storeGet (f st jobId pipeline t1 t2).1 jobId = some j ∧
      j.status = JobStatus.failed ∧ j.error = some e) ∧
  (∀ p, pipeline = Except.ok p →
    (f st jobId pipeline t1 t2).2 = Except.ok p ∧
    ∃ j, storeGet (f st jobId pipeline t1 t2).1 jobId = some j ∧
      j.status = JobStatus.completed ∧ j.result = some p)

theorem runJobTask_records_outcome (st : Store) (jobId : String)
    (job : JobMetadata) (pipeline : Except String Payload) (t1 t2 : Nat)
    (h : storeGet st jobId = some job) :
    dispatchRecordsOutcome runJobTask st jobId pipeline t1 t2 := by
  have hp := mark_processing_of_present job t1 h
  have h1 : storeGet (storeSet st jobId (job.with_status JobStatus.processing t1))
      jobId = some (job.with_status JobStatus.processing t1) :=
    storeGet_storeSet_self ..
  constructor
  · intro e he
    subst he
    have hf := mark_failed_of_present (job.with_status JobStatus.processing t1)
      e t2 h1
    refine ⟨?_, ?_⟩
    · simp [runJobTask, hp, hf]
    · refine ⟨(job.with_status JobStatus.processing t1).with_error e t2, ?_, rfl, rfl⟩
      simp [runJobTask, hp, hf, storeGet_storeSet_self]
  · intro p hpipe
    subst hpipe
    have hc := mark_completed_of_present (job.with_status JobStatus.processing t1)
      p t2 h1
    refine ⟨?_, ?_⟩
    · simp [runJobTask, hp, hc]
    · refine ⟨(job.with_status JobStatus.processing t1).with_result p t2, ?_, rfl, rfl⟩
      simp [runJobTask, hp, hc, storeGet_storeSet_self]

/-- C7: for every job present in the store, both task bodies record the job
`failed` (with the exception's message) before re-raising a pipeline
exception, never swallowing it, and on success record `completed` with the
serialized result. -/
theorem dispatcher_records_outcome (st : Store) (jobId : String)
    (job : JobMetadata) (pipeline : Except String Payload) (t1 t2 : Nat)
    (h : storeGet st jobId = some job) :
    dispatchRecordsOutcome process_image_conversion st jobId pipeline t1 t2 ∧
      dispatchRecordsOutcome generate_critical_css st jobId pipeline t1 t2 :=
  ⟨runJobTask_records_outcome st jobId job pipeline t1 t2 h,
   runJobTask_records_outcome st jobId job pipeline t1 t2 h⟩

/-- A freshly created job record used to witness the dispatch contract. -/
def c7Job : JobMetadata := (create_job [] "a" "image" [] 0).2

/-- C7 witness: the dispatch contract at a concrete queued job and a
concrete failing pipeline. -/
theorem dispatcher_records_outcome_witness :
    storeGet [("a", c7Job)] "a" = some c7Job ∧
      (dispatchRecordsOutcome process_image_conversion [("a", c7Job)] "a"
          (Except.error "boom") 1 2 ∧
        dispatchRecordsOutcome generate_critical_css [("a", c7Job)] "a"
          (Except.error "boom") 1 2) :=
  ⟨by decide,
   dispatcher_records_outcome [("a", c7Job)] "a" c7Job (Except.error "boom") 1 2
     (by decide)⟩

/-! ## Mobile hero detection (`src/app/services/mobile_hero_detector.py`)

The in-page JavaScript computes each candidate's geometry and score; the
Python side picks `max(candidates, key=lambda c: c.score)` and retries the
collection once after a scroll when the first pass is empty.  Geometry values
(CSS pixels, JS numbers) are modelled as rationals — all arithmetic involved
is exact. -/

/-- One collected candidate (`_DetectionCandidate` geometry fields). -/
structure RawCandidate where
  src : String
  top : ℚ
  left : ℚ
  width : ℚ
  height : ℚ
  visibleArea : ℚ
deriving DecidableEq, Repr

/-- Candidate score from the collection script:
`score = visibleArea - Math.max(rect.top, 0) * 25`. -/
def candidateScore (c : RawCandidate) : ℚ :=
  c.visibleArea - max c.top 0 * 25

/-- Python `max(candidates, key=key)`: scans left to right, replacing the
current best only on a strictly greater key, hence returning the first
maximal element; `none` on an empty list (Python raises `ValueError`, but
the call site guards against emptiness). -/
def pyMax (key : RawCandidate → ℚ) : List RawCandidate → Option RawCandidate
  | [] => none
  | x :: xs =>
    some (xs.foldl (fun best c => if key best < key c then c else best) x)

/-- `best = max(candidates, key=lambda c: c.score)`. -/
def selectBest (candidates : List RawCandidate) : Option RawCandidate :=
  pyMax candidateScore candidates

/-- Result of one `_detect_with_playwright` pass, together with the
observable browser interactions: how many times `_collect_candidates` ran and
which `window.scrollBy` calls were issued. -/
structure DetectOutcome where
  result : Option RawCandidate
  collectCalls : Nat
  scrollEvents : List (ℚ × ℚ)
deriving DecidableEq, Repr

/-- The candidate-selection portion of `_detect_with_playwright`: collect;
if empty, `window.scrollBy(0, window.innerHeight * 0.25)` and collect once
more; if still empty return `None`, else return the best-scoring candidate. -/
def detectHero (innerHeight : ℚ) (collect1 collect2 : List RawCandidate) :
    DetectOutcome :=
  if collect1.isEmpty then
    if collect2.isEmpty then
      { result := none, collectCalls := 2,
        scrollEvents := [(0, innerHeight * (25 / 100))] }
    else
      { result := selectBest collect2, collectCalls := 2,
        scrollEvents := [(0, innerHeight * (25 / 100))] }
  else
    { result := selectBest collect1, collectCalls := 1, scrollEvents := [] }

/-! ### Claim C4 — scoring formula and the two-candidate example -/

/-- First candidate of the spec's worked example: fully visible area 10000
at the top of the viewport. -/
def exampleHeroA : RawCandidate :=
  { src := "https://example.com/a.jpg", top := 0, left := 0,
    width := 100, height := 100, visibleArea := 10000 }

/-- Second candidate of the worked example: area 9000 starting 50px down. -/
def exampleHeroB : RawCandidate :=
  { src := "https://example.com/b.jpg", top := 50, left := 0,
    width := 100, height := 90, visibleArea := 9000 }

/-- C4: every candidate's score is `visible_area - max(top, 0) * 25`, and on
the example pair the scores are 10000 and 9000 - 50·25 = 7750, so the
heuristic selects the first candidate. -/
theorem score_formula_and_example :
    (∀ c : RawCandidate, candidateScore c = c.visibleArea - max c.top 0 * 25) ∧
      candidateScore exampleHeroA = 10000 ∧
      candidateScore exampleHeroB = 7750 ∧
      selectBest [exampleHeroA, exampleHeroB] = some exampleHeroA := by
  refine ⟨fun _ => rfl, ?_, ?_, ?_⟩
  · norm_num [candidateScore, exampleHeroA]
  · norm_num [candidateScore, exampleHeroB]
  · norm_num [selectBest, pyMax, candidateScore, exampleHeroA, exampleHeroB]

/-! ### Claim C5 — maximality, first-wins tie-break, determinism -/

theorem pyMax_foldl_spec (key : RawCandidate → ℚ) :
    ∀ (l : List RawCandidate) (b r : RawCandidate),
      l.foldl (fun best c => if key best < key c then c else best) b = r →
      (r = b ∧ ∀ c ∈ l, key c ≤ key b) ∨
        (∃ l1 l2, l = l1 ++ r :: l2 ∧ key b < key r ∧
          (∀ c ∈ l1, key c < key r) ∧ ∀ c ∈ l, key c ≤ key r) := by
  intro l
  induction l with
  | nil =>
    intro b r hr
    exact Or.inl ⟨hr.symm, by simp⟩
  | cons a t ih =>
    intro b r hr
    by_cases hba : key b < key a
    · have hr' : t.foldl (fun best c => if key best < key c then c else best) a = r := by
        simpa [hba] using hr
      rcases ih a r hr' with ⟨hra, hall⟩ | ⟨l1, l2, ht, hlt, hstrict, hall⟩
      · subst hra
        refine Or.inr ⟨[], t, by simp, hba, by simp, ?_⟩
        intro c hc
        rcases List.mem_cons.mp hc with hc | hc
        · subst hc; exact le_refl _
        · exact hall c hc
      · refine Or.inr ⟨a :: l1, l2, by simp [ht], lt_trans hba hlt, ?_, ?_⟩
        · intro c hc
          rcases List.mem_cons.mp hc with hc | hc
          · subst hc; exact hlt
          · exact hstrict c hc
        · intro c hc
          rcases List.mem_cons.mp hc with hc | hc
          · subst hc; exact le_of_lt hlt
          · exact hall c hc
    · have hr' : t.foldl (fun best c => if key best < key c then c else best) b = r := by
        simpa [hba] using hr
      rcases ih b r hr' with ⟨hra, hall⟩ | ⟨l1, l2, ht, hlt, hstrict, hall⟩
      · refine Or.inl ⟨hra, ?_⟩
        intro c hc
        rcases List.mem_cons.mp hc with hc | hc
        · subst hc; exact le_of_not_lt hba
        · exact hall c hc
      · refine Or.inr ⟨a :: l1, l2, by simp [ht], hlt, ?_, ?_⟩
        · intro c hc
          rcases List.mem_cons.mp hc with hc | hc
          · subst hc; exact lt_of_le_of_lt (le_of_not_lt hba) hlt
          · exact hstrict c hc
        · intro c hc
          rcases List.mem_cons.mp hc with hc | hc
          · subst hc; exact le_trans (le_of_not_lt hba) (le_of_lt hlt)
          · exact hall c hc

/-- C5: on every non-empty candidate list, `selectBest` returns a candidate
of maximal score, and every candidate listed before it scores strictly
lower — so among equal maximal scores the earliest candidate wins.  The
selection is a pure function of the input list, hence deterministic across
repeated runs by definition. -/
theorem selectBest_first_max (l : List RawCandidate) (hne : l ≠ []) :
    ∃ c l1 l2, selectBest l = some c ∧ l = l1 ++ c :: l2 ∧
      (∀ d ∈ l1, candidateScore d < candidateScore c) ∧
      ∀ d ∈ l, candidateScore d ≤ candidateScore c := by
  match l, hne with
  | x :: xs, _ =>
    obtain ⟨r, hr⟩ : ∃ r, xs.foldl
        (fun best c => if candidateScore best < candidateScore c then c
          else best) x = r := ⟨_, rfl⟩
    have hsel : selectBest (x :: xs) = some r := by simp [selectBest, pyMax, hr]
    rcases pyMax_foldl_spec candidateScore xs x r hr with
      ⟨hrx, hall⟩ | ⟨l1, l2, hxs, hlt, hstrict, hall⟩
    · subst hrx
      refine ⟨r, [], xs, hsel, by simp, by simp, ?_⟩
      intro d hd
      rcases List.mem_cons.mp hd with hd | hd
      · subst hd; exact le_refl _
      · exact hall d hd
    · refine ⟨r, x :: l1, l2, hsel, by rw [hxs]; rfl, ?_, ?_⟩
      · intro d hd
        rcases List.mem_cons.mp hd with hd | hd
        · subst hd; exact hlt
        · exact hstrict d hd
      · intro d hd
        rcases List.mem_cons.mp hd with hd | hd
        · subst hd; exact le_of_lt hlt
        · exact hall d hd

/-- A candidate tying `exampleHeroA`'s score (10250 - 10·25 = 10000). -/
def exampleHeroTie : RawCandidate :=
  { src := "https://example.com/tie.jpg", top := 10, left := 0,
    width := 125, height := 82, visibleArea := 10250 }

/-- C5 witness: the theorem applied to a concrete two-candidate list with
identical scores. -/
theorem selectBest_first_max_witness :
    [exampleHeroA, exampleHeroTie] ≠ [] ∧
      ∃ c l1 l2, selectBest [exampleHeroA, exampleHeroTie] = some c ∧
        [exampleHeroA, exampleHeroTie] = l1 ++ c :: l2 ∧
        (∀ d ∈ l1, candidateScore d < candidateScore c) ∧
        ∀ d ∈ [exampleHeroA, exampleHeroTie],
          candidateScore d ≤ candidateScore c :=
  ⟨by simp, selectBest_first_max [exampleHeroA, exampleHeroTie] (by simp)⟩

/-! ### Claim C6 — empty first collection: one scroll retry, then `None` -/

/-- C6: when the first collection is empty the detector performs exactly one
retry — one `scrollBy(0, innerHeight·0.25)` and a second collection (two
collections in total) — and if the retry is also empty it returns `none`
rather than an error; a non-empty first collection triggers no retry. -/
theorem detect_retry_behavior (innerHeight : ℚ) (collect2 : List RawCandidate) :
    (detectHero innerHeight [] collect2).collectCalls = 2 ∧
      (detectHero innerHeight [] collect2).scrollEvents =
        [(0, innerHeight * (25 / 100))] ∧
      (collect2 = [] → (detectHero innerHeight [] collect2).result = none) ∧
      ∀ collect1 : List RawCandidate, collect1 ≠ [] →
        (detectHero innerHeight collect1 collect2).collectCalls = 1 ∧
          (detectHero innerHeight collect1 collect2).scrollEvents = [] := by
  refine ⟨?_, ?_, ?_, ?_⟩
  · cases collect2 <;> rfl
  · cases collect2 <;> rfl
  · intro h; subst h; rfl
  · intro collect1 h1
    match collect1, h1 with
    | c :: cs, _ => exact ⟨rfl, rfl⟩

/-- C6 witness: the mobile viewport height 844 with both collections empty:
two collection passes, one quarter-viewport scroll, and a `None` result. -/
theorem detect_retry_behavior_witness :
    ((detectHero 844 [] []).collectCalls = 2 ∧
        (detectHero 844 [] []).scrollEvents = [(0, 844 * (25 / 100))] ∧
        (detectHero 844 [] []).result = none) ∧
      ((detectHero 844 [exampleHeroB] []).collectCalls = 1 ∧
        (detectHero 844 [exampleHeroB] []).scrollEvents = []) := by
  have h := detect_retry_behavior 844 []
  exact ⟨⟨h.1, h.2.1, h.2.2.1 rfl⟩, h.2.2.2 [exampleHeroB] (by simp)⟩

/-! ## Image optimizer (`src/app/services/image_optimizer.py`)

Byte sizes are naturals; the float arithmetic of `savings_percent` is exact
decimal arithmetic on these inputs and is modelled over ℚ, with Python's
`round(x, 1)` (banker's rounding to one decimal digit) made explicit. -/

/-- Integer core of Python's `round`: round half to even. -/
def roundHalfEven (x : ℚ) : ℤ :=
  if x - ⌊x⌋ < 1 / 2 then ⌊x⌋
  else if 1 / 2 < x - ⌊x⌋ then ⌊x⌋ + 1
  else if ⌊x⌋ % 2 = 0 then ⌊x⌋ else ⌊x⌋ + 1

/-- Python `round(x, 1)`: one decimal digit, half to even. -/
def round1 (x : ℚ) : ℚ := (roundHalfEven (x * 10) : ℚ) / 10

/-- `_process_variant`'s savings computation:
`0.0` when the original size is `0`, else
`round(max(0.0, (1 - optimized/original) * 100), 1)`. -/
def savingsPercent (originalSize optimizedSize : Nat) : ℚ :=
  if originalSize = 0 then 0
  else round1 (max 0 ((1 - (optimizedSize : ℚ) / (originalSize : ℚ)) * 100))

theorem roundHalfEven_nonneg {x : ℚ} (hx : 0 ≤ x) : 0 ≤ roundHalfEven x := by
  have h : (0 : ℤ) ≤ ⌊x⌋ := Int.floor_nonneg.mpr hx
  unfold roundHalfEven
  split_ifs <;> omega

theorem roundHalfEven_le {x : ℚ} {B : ℤ} (hx : x ≤ (B : ℚ)) :
    roundHalfEven x ≤ B := by
  have hfl : ⌊x⌋ ≤ B := by
    have h := Int.floor_le_floor hx
    simpa using h
  have hxfl : (⌊x⌋ : ℚ) ≤ x := Int.floor_le x
  unfold roundHalfEven
  split_ifs with h1 h2 h3
  · exact hfl
  · have hlt : (⌊x⌋ : ℚ) < (B : ℚ) := by linarith
    have : ⌊x⌋ < B := by exact_mod_cast hlt
    omega
  · exact hfl
  · have heq : x - ⌊x⌋ = 1 / 2 := le_antisymm (le_of_not_lt h2) (le_of_not_lt h1)
    have hlt : (⌊x⌋ : ℚ) < (B : ℚ) := by linarith
    have : ⌊x⌋ < B := by exact_mod_cast hlt
    omega

theorem round1_nonneg {x : ℚ} (hx : 0 ≤ x) : 0 ≤ round1 x := by
  have h : (0 : ℤ) ≤ roundHalfEven (x * 10) :=
    roundHalfEven_nonneg (by linarith)
  have h' : (0 : ℚ) ≤ (roundHalfEven (x * 10) : ℚ) := by exact_mod_cast h
  unfold round1
  linarith

theorem round1_le_100 {x : ℚ} (hx : x ≤ 100) : round1 x ≤ 100 := by
  have h : roundHalfEven (x * 10) ≤ (1000 : ℤ) :=
    roundHalfEven_le (by push_cast; linarith)
  have h' : (roundHalfEven (x * 10) : ℚ) ≤ 1000 := by exact_mod_cast h
  unfold round1
  linarith

theorem round1_zero : round1 0 = 0 := by
  norm_num [round1, roundHalfEven]

/-- C8: `savings_percent` always lies in `[0, 100]`; it is `0` when the
original size is `0` (no division fault — the guard short-circuits), and `0`
whenever the optimized size is at least the original size. -/
theorem savings_percent_bounds (s o : Nat) :
    0 ≤ savingsPercent s o ∧ savingsPercent s o ≤ 100 ∧
      (s = 0 → savingsPercent s o = 0) ∧ (s ≤ o → savingsPercent s o = 0) := by
  by_cases hs : s = 0
  · subst hs
    refine ⟨le_refl 0, by norm_num [savingsPercent], fun _ => rfl, fun _ => rfl⟩
  · have hspos : (0 : ℚ) < (s : ℚ) := by
      exact_mod_cast Nat.pos_of_ne_zero hs
    have hdiv : (0 : ℚ) ≤ (o : ℚ) / (s : ℚ) :=
      div_nonneg (by positivity) (le_of_lt hspos)
    have hval : savingsPercent s o =
        round1 (max 0 ((1 - (o : ℚ) / (s : ℚ)) * 100)) := by
      simp [savingsPercent, hs]
    have hy0 : 0 ≤ max 0 ((1 - (o : ℚ) / (s : ℚ)) * 100) := le_max_left _ _
    have hy100 : max 0 ((1 - (o : ℚ) / (s : ℚ)) * 100) ≤ 100 := by
      apply max_le (by norm_num)
      nlinarith
    refine ⟨hval ▸ round1_nonneg hy0, hval ▸ round1_le_100 hy100,
      fun h => absurd h hs, ?_⟩
    intro hso
    have hd1 : (1 : ℚ) ≤ (o : ℚ) / (s : ℚ) :=
      (one_le_div hspos).mpr (by exact_mod_cast hso)
    have hneg : (1 - (o : ℚ) / (s : ℚ)) * 100 ≤ 0 := by nlinarith
    have hmax : max 0 ((1 - (o : ℚ) / (s : ℚ)) * 100) = 0 := max_eq_left hneg
    rw [hval, hmax, round1_zero]

/-- C8 witness: the division-fault guard at original size `0` and the
clamping at `optimized ≥ original`, at concrete sizes. -/
theorem savings_percent_bounds_witness :
    savingsPercent 0 5 = 0 ∧ savingsPercent 4 8 = 0 :=
  ⟨(savings_percent_bounds 0 5).2.2.1 rfl,
   (savings_percent_bounds 4 8).2.2.2 (by norm_num)⟩

/-! ### Claim C9 — format normalization (`_normalize_formats`) -/

/-- Python `str.lower()`: per-character lowercasing (the format names in play
are ASCII, where `Char.toLower` agrees with Python). -/
def pyLower (s : String) : String := ⟨s.data.map Char.toLower⟩

/-- `_normalize_formats`: iterate `formats or ["webp"]`, lowercase each
entry, and keep the first occurrence of each lowercased format via an
insertion-ordered dict (modelled as the accumulated list of keys; Python's
`in` test is `∈`). -/
def normalizeFormats (formats : List String) : List String :=
  (if formats.isEmpty then ["webp"] else formats).foldl
    (fun seen fmt =>
      let f := pyLower fmt
      if f ∈ seen then seen else seen ++ [f]) []

/-- Modelled from the spec's words "deduplicated, order-preserving": keep
each element's first occurrence, dropping the later duplicates. -/
def dedupFirst : List String → List String
  | [] => []
  | a :: l => a :: dedupFirst (l.filter (fun b => decide (b ≠ a)))
termination_by l => l.length
decreasing_by
  simp only [List.length_cons]
  exact Nat.lt_succ_of_le (List.length_filter_le _ _)

/-- First-occurrence deduplication with an explicit already-seen
accumulator, the shape the fold of `_normalize_formats` computes. -/
def dedupAvoid : List String → List String → List String
  | _, [] => []
  | acc, a :: l =>
    if a ∈ acc then dedupAvoid acc l
    else a :: dedupAvoid (acc ++ [a]) l

theorem foldl_dedup_eq (l : List String) :
    ∀ acc : List String,
      l.foldl (fun seen f => if f ∈ seen then seen else seen ++ [f]) acc
        = acc ++ dedupAvoid acc l := by
  induction l with
  | nil => intro acc; simp [dedupAvoid]
  | cons a t ih =>
    intro acc
    by_cases h : a ∈ acc
    · simp [h, dedupAvoid, ih]
    · simp [h, dedupAvoid, ih, List.append_assoc]

theorem dedupAvoid_eq (l : List String) :
    ∀ acc : List String,
      dedupAvoid acc l = dedupFirst (l.filter (fun b => decide (b ∉ acc))) := by
  induction l with
  | nil => intro acc; simp [dedupAvoid, dedupFirst]
  | cons a t ih =>
    intro acc
    by_cases h : a ∈ acc
    · simp [dedupAvoid, h, List.filter_cons, ih]
    · have hl : dedupAvoid acc (a :: t)
          = a :: dedupFirst (t.filter (fun b => decide (b ∉ acc ++ [a]))) := by
        simp only [dedupAvoid, if_neg h]
        rw [ih (acc ++ [a])]
      rw [hl]
      have hkeep : decide (a ∉ acc) = true := by simpa using h
      rw [List.filter_cons]
      simp only [hkeep, if_true]
      rw [show dedupFirst (a :: t.filter (fun b => decide (b ∉ acc)))
          = a :: dedupFirst ((t.filter (fun b => decide (b ∉ acc))).filter
            (fun b => decide (b ≠ a))) from by simp [dedupFirst]]
      rw [List.filter_filter]
      have hpred : (t.filter fun b => decide (b ≠ a) && decide (b ∉ acc))
          = t.filter fun b => decide (b ∉ acc ++ [a]) := by
        apply List.filter_congr
        intro b _
        by_cases hc : b ∈ acc <;> by_cases he : b = a <;>
          simp_all [List.mem_append]
      rw [hpred]

/-- C9: `_normalize_formats` returns the case-insensitively deduplicated
request list, keeping the first occurrence of each lowercased format in
input order, and an empty list defaults to `["webp"]`; on
`["webp", "WEBP", "png"]` it yields exactly `["webp", "png"]`. -/
theorem normalize_formats_spec :
    (∀ fs : List String, normalizeFormats fs =
        dedupFirst ((if fs.isEmpty then ["webp"] else fs).map pyLower)) ∧
      normalizeFormats [] = ["webp"] ∧
      normalizeFormats ["webp", "WEBP", "png"] = ["webp", "png"] := by
  refine ⟨?_, by decide, by decide⟩
  intro fs
  have h1 : normalizeFormats fs
      = ((if fs.isEmpty then ["webp"] else fs).map pyLower).foldl
        (fun seen f => if f ∈ seen then seen else seen ++ [f]) [] :=
    (List.foldl_map pyLower
      (fun seen f => if f ∈ seen then seen else seen ++ [f]) _ []).symm
  rw [h1, foldl_dedup_eq, dedupAvoid_eq]
  simp

/-! ### Claim C10 — data-URI variants and the prefetch tag

`_process_variant` embeds every optimized buffer as a base64 data URI; the
Tinify compression and `base64.b64encode` are external collaborators,
abstracted as the buffer's byte length plus its base64 text. -/

/-- Optimized buffer returned by the Tinify transport for one format:
its byte length and base64 rendering. -/
structure ExtBuffer where
  size : Nat
  b64 : String
deriving DecidableEq, Repr

/-- `OptimizedImage` pydantic model (`src/app/models/image.py`). -/
structure OptimizedImage where
  format : String
  url : String
  bytes : Nat
  savings_percent : ℚ
deriving DecidableEq, Repr

/-- `_format_to_mime`: TinyPNG MIME type list for the requested format. -/
def format_to_mime (fmt : String) : List String :=
  if fmt = "webp" then ["image/webp"]
  else if fmt = "avif" then ["image/avif"]
  else if fmt = "jpeg" then ["image/jpeg"]
  else if fmt = "jpg" then ["image/jpeg"]
  else if fmt = "png" then ["image/png"]
  else []

/-- Python `str.startswith`: the needle's characters are a prefix of the
subject's. -/
def pyStartswith (s pre : String) : Bool :=
  pre.data.isPrefixOf s.data

/-- `_process_variant`: builds the variant whose `url` is the
`data:{mime};base64,{...}` string for the optimized buffer. -/
def processVariant (fmt : String) (sourceSize : Nat) (buf : ExtBuffer) :
    OptimizedImage :=
  let convertTypes := format_to_mime fmt
  let mime :=
    match convertTypes with
    | [] => "image/" ++ fmt
    | m :: _ => m
  { format := fmt,
    url := "data:" ++ (mime ++ (";base64," ++ buf.b64)),
    bytes := buf.size,
    savings_percent := savingsPercent sourceSize buf.size }

/-- `_perform_conversion`'s per-format loop over the normalized formats:
fail-fast on a Tinify error, wrapped as a `RuntimeError` naming the format. -/
def convertVariants (sourceSize : Nat) (bufFor : String → Except String ExtBuffer) :
    List String → Except String (List OptimizedImage)
  | [] => Except.ok []
  | fmt :: rest =>
    match bufFor fmt with
    | Except.error e =>
      Except.error ("TinyPNG conversion failed (" ++ fmt ++ "): " ++ e)
    | Except.ok buf =>
      match convertVariants sourceSize bufFor rest with
      | Except.error e => Except.error e
      | Except.ok vs => Except.ok (processVariant fmt sourceSize buf :: vs)

/-- `_perform_conversion`: normalize the formats then convert each. -/
def perform_conversion (sourceSize : Nat)
    (bufFor : String → Except String ExtBuffer) (formats : List String) :
    Except String (List OptimizedImage) :=
  convertVariants sourceSize bufFor (normalizeFormats formats)

/-- The `prefetch_tag` computation in `convert`: only a non-data first
variant URL produces a tag. -/
def prefetchTag (prefetch : Bool) (variants : List OptimizedImage) :
    Option String :=
  if prefetch then
    match variants with
    | [] => none
    | v :: _ =>
      if pyStartswith v.url "data:" then none
      else some ("<link rel=\"prefetch\" href=\"" ++ v.url ++ "\" as=\"image\">")
  else none

theorem isPrefixOf_append_self (l r : List Char) :
    l.isPrefixOf (l ++ r) = true := by
  induction l with
  | nil => simp [List.isPrefixOf]
  | cons a as ih => simp [List.isPrefixOf, ih]

theorem processVariant_url_data (fmt : String) (sourceSize : Nat)
    (buf : ExtBuffer) :
    pyStartswith (processVariant fmt sourceSize buf).url "data:" = true := by
  exact isPrefixOf_append_self "data:".data _

theorem convertVariants_ok (sourceSize : Nat)
    (bufFor : String → Except String ExtBuffer) :
    ∀ (fmts : List String) (variants : List OptimizedImage),
      convertVariants sourceSize bufFor fmts = Except.ok variants →
      ∀ v ∈ variants, ∃ fmt buf, v = processVariant fmt sourceSize buf := by
  intro fmts
  induction fmts with
  | nil =>
    intro variants h v hv
    simp only [convertVariants] at h
    cases h
    simp at hv
  | cons fmt rest ih =>
    intro variants h v hv
    simp only [convertVariants] at h
    cases hbuf : bufFor fmt with
    | error e => rw [hbuf] at h; cases h
    | ok buf =>
      rw [hbuf] at h
      cases hrest : convertVariants sourceSize bufFor rest with
      | error e => rw [hrest] at h; cases h
      | ok vs =>
        rw [hrest] at h
        cases h
        rcases List.mem_cons.mp hv with hv | hv
        · exact ⟨fmt, buf, hv⟩
        · exact ih vs hrest v hv

/-- C10: whenever `_perform_conversion` succeeds, every produced variant's
`url` is a data URI (it starts with `"data:"`), and therefore the
`prefetch_tag` built by `convert` is `None` for every prefetch setting,
including `prefetch = true`. -/
theorem variants_data_uri_no_prefetch (sourceSize : Nat)
    (bufFor : String → Except String ExtBuffer) (formats : List String)
    (variants : List OptimizedImage) (prefetch : Bool)
    (h : perform_conversion sourceSize bufFor formats = Except.ok variants) :
    (∀ v ∈ variants, pyStartswith v.url "data:" = true) ∧
      prefetchTag prefetch variants = none := by
  have hurl : ∀ v ∈ variants, pyStartswith v.url "data:" = true := by
    intro v hv
    obtain ⟨fmt, buf, hveq⟩ :=
      convertVariants_ok sourceSize bufFor (normalizeFormats formats) variants h
        v hv
    rw [hveq]
    exact processVariant_url_data fmt sourceSize buf
  refine ⟨hurl, ?_⟩
  unfold prefetchTag
  cases prefetch with
  | false => rfl
  | true =>
    cases variants with
    | nil => rfl
    | cons v vs =>
      simp [hurl v (List.mem_cons_self v vs)]

/-- Concrete external buffer result used for the C10 witness. -/
def c10Buf : String → Except String ExtBuffer :=
  fun _ => Except.ok { size := 3, b64 := "QUJD" }

/-- The single variant `perform_conversion` produces for the witness. -/
def c10Var : OptimizedImage := processVariant "webp" 10 { size := 3, b64 := "QUJD" }

/-- C10 witness: a concrete successful conversion of one `webp` variant:
its URL is a data URI and `prefetch_tag` is `None` despite `prefetch = true`. -/
theorem variants_data_uri_no_prefetch_witness :
    perform_conversion 10 c10Buf ["webp"] = Except.ok [c10Var] ∧
      ((∀ v ∈ [c10Var], pyStartswith v.url "data:" = true) ∧
        prefetchTag true [c10Var] = none) :=
  ⟨rfl, variants_data_uri_no_prefetch 10 c10Buf ["webp"] [c10Var] true rfl⟩

end SeoMax
